import Mathlib

/-!
# Verification of RustMediaMerger (src/src/main.rs)

A shallow embedding of the stream-probing, track-selection, merge-planning and
merge-execution logic of the `AudioMergerApp` GUI application.  Subprocess
boundaries (`ffprobe`, `ffmpeg`) are modelled by passing the subprocess outcome
as an explicit argument; the pure decision logic is translated line by line
from the Rust source.  Rust `u32` stream indices are modelled as `Nat` with an
explicit `% 2^32` at the one place the source truncates (`idx as u32`).
-/

set_option autoImplicit false

namespace RustMediaMerger

/-- Pairs `(stream_index, language_tag)` — the Rust `type AudioStream = (u32, String)`. -/
abbrev AudioStream := Nat × String

/-- A model of `serde_json::Value` restricted to what ffprobe payloads use.
Numbers are modelled as integers (`Json.num`); a JSON number that is not an
integer behaves, for every accessor used by the source (`as_u64`), like any
other value on which the accessor fails, so nothing is lost by this choice. -/
inductive Json where
  | null
  | bool (b : Bool)
  | num (n : Int)
  | str (s : String)
  | arr (elems : List Json)
  | obj (fields : List (String × Json))

/-- Key lookup in an object's field list (first match; serde maps hold no
duplicate keys). -/
def lookupField : List (String × Json) → String → Option Json
  | [], _ => none
  | (k, v) :: rest, key => if k = key then some v else lookupField rest key

/-- Model of `serde_json::Value::get(key)`: `Some` field value on objects, `None` on
every other variant. -/
def Json.get : Json → String → Option Json
  | .obj fields, key => lookupField fields key
  | _, _ => none

/-- Model of `Value::as_array`. -/
def Json.as_array : Json → Option (List Json)
  | .arr elems => some elems
  | _ => none

/-- Model of `Value::as_str`. -/
def Json.as_str : Json → Option String
  | .str s => some s
  | _ => none

/-- Model of `Value::as_u64`: the number when it is an integer representable in `u64`. -/
def Json.as_u64 : Json → Option Nat
  | .num n => if 0 ≤ n ∧ n < 2 ^ 64 then some n.toNat else none
  | _ => none

/-- ASCII-lowercased code point of a character, as Rust's per-byte
`to_ascii_lowercase` acts on it (code points ≥ 128 are untouched). -/
def ascii_lower_code (c : Char) : Nat :=
  if 65 ≤ c.toNat ∧ c.toNat ≤ 90 then c.toNat + 32 else c.toNat

/-- Rust `str::eq_ignore_ascii_case`. -/
def eq_ignore_ascii_case (a b : String) : Bool :=
  a.data.map ascii_lower_code = b.data.map ascii_lower_code

/-- Outcome of running the `ffprobe` subprocess, the boundary of
`get_all_audio_tracks` (main.rs:483–517) that the embedding takes as input:
the spawn can fail (`Err(e)` from `.output()`), the tool can exit non-zero,
or it succeeds with a stdout text together with `serde_json::from_str`'s
verdict on that text. -/
inductive ProbeResult where
  | execError (e : String)
  | exitNonzero
  | success (stdout : String) (parsed : Except String Json)

/-- The `for s in streams` loop of `get_all_audio_tracks` (main.rs:526–538):
an entry without a usable `index` is skipped; a missing `tags.language`
string becomes `"unknown"`; `idx as u32` truncates.  Returns the collected
streams together with the per-stream log lines. -/
def extract_streams : List Json → List AudioStream × List String
  | [] => ([], [])
  | s :: rest =>
    match (s.get "index").bind Json.as_u64 with
    | none => extract_streams rest
    | some idx =>
      let lang := ((((s.get "tags").bind (fun t => t.get "language")).bind
        Json.as_str).getD "unknown")
      let line := "Found stream " ++ toString idx ++ " with lang \"" ++ lang ++ "\""
      let r := extract_streams rest
      ((idx % 2 ^ 32, lang) :: r.1, line :: r.2)

/-- Function `get_all_audio_tracks` (main.rs:478–540) with the subprocess boundary made
explicit: returns the stream list together with every line sent through the
injected `log_fn`. -/
def get_all_audio_tracks (file_path : String) (probe : ProbeResult) :
    List AudioStream × List String :=
  let log0 := ["ffprobe → probing: " ++ file_path]
  match probe with
  | .execError e => ([], log0 ++ ["ffprobe failed to execute: " ++ e])
  | .exitNonzero => ([], log0 ++ ["ffprobe returned nonzero for " ++ file_path])
  | .success stdout parsed =>
    let log1 := log0 ++ ["ffprobe JSON: " ++ stdout]
    match parsed with
    | .error e => ([], log1 ++ ["JSON parse error: " ++ e])
    | .ok v =>
      match (v.get "streams").bind Json.as_array with
      | none => ([], log1 ++ ["No “streams” array in ffprobe output"])
      | some streams =>
        let r := extract_streams streams
        (r.1, log1 ++ r.2)

/-- The scan of `find_audio_track` (main.rs:543–554) over the probed track
list: first stream whose `language` tag matches `language_code` ignoring ASCII
case.  The source function takes a file path and probes it; its pure core
operates on the resulting list, which the embedding passes directly. -/
def find_audio_track (tracks : List AudioStream) (language_code : String) :
    Option Nat :=
  match tracks with
  | [] => none
  | (idx, lang) :: rest =>
    if eq_ignore_ascii_case lang language_code then some idx
    else find_audio_track rest language_code

/-- Outcome of the `ffmpeg` subprocess (`Command::status()` in
main.rs:244–265): the spawn can fail (`Err` branch), or the tool exits with
an `ExitStatus` whose `code()` is an `Option<i32>` (`None` only when killed by
a signal); `success()` holds exactly when the code is zero. -/
inductive MuxOutcome where
  | spawnFailed
  | exited (code : Option Int)
  deriving DecidableEq

/-- Rust `{:?}` rendering of an `Option<i32>`. -/
def repr_opt_int : Option Int → String
  | some n => "Some(" ++ toString n ++ ")"
  | none => "None"

/-- The `if let Ok(s) = status { … }` outcome classification, identical in the
two branches of the worker (main.rs:267–275 and 303–311) except for the
success message (`fallback = true` in the no-eng branch). -/
def mux_outcome_logs (fallback : Bool) (outcome : MuxOutcome) : List String :=
  match outcome with
  | .spawnFailed => ["Error: Unable to run ffmpeg.exe."]
  | .exited code =>
    if code = some 0 then
      [if fallback then "Merge completed successfully (fallback video audio)!"
       else "Merge completed successfully!"]
    else
      ["ffmpeg exited with code " ++ repr_opt_int code ++ "."]

/-- The body of the worker thread spawned by `start_merge` (main.rs:233–316),
with the two subprocess boundaries passed in (`videoProbe` for ffprobe on the
video, `outcome` for the single ffmpeg run).  Returns the argument list handed
to `ffmpeg` and the full ordered list of messages sent over the channel,
`"MERGE_DONE"` last. -/
def merge_worker (video audio output : String) (track : Nat)
    (videoProbe : ProbeResult) (outcome : MuxOutcome) :
    List String × List String :=
  let probed := get_all_audio_tracks video videoProbe
  match find_audio_track probed.1 "eng" with
  | some engIdx =>
    (["-hide_banner", "-loglevel", "error", "-y",
      "-i", video, "-i", audio,
      "-map", "0:0",
      "-map", "0:" ++ toString engIdx,
      "-map", "1:" ++ toString track,
      "-c", "copy", output],
     ["ffprobe → searching for 'eng' in video..."] ++ probed.2 ++
      ["Found 'eng' at index " ++ toString engIdx ++ ".",
       "Running ffmpeg to merge..."] ++
      mux_outcome_logs false outcome ++ ["MERGE_DONE"])
  | none =>
    (["-hide_banner", "-loglevel", "error", "-y",
      "-i", video, "-i", audio,
      "-map", "0:0",
      "-map", "0:1",
      "-map", "1:" ++ toString track,
      "-c", "copy", output],
     ["ffprobe → searching for 'eng' in video..."] ++ probed.2 ++
      ["No 'eng' in video; using fallback audio 0:1 from video.",
       "Running ffmpeg to merge..."] ++
      mux_outcome_logs true outcome ++ ["MERGE_DONE"])

/-- The fields of `struct AudioMergerApp` that carry application state; the
channel endpoints are modelled by returning sent messages / spawn requests
explicitly, and drained messages are appended to `logs`. -/
structure AppState where
  video_path : Option String
  audio_path : Option String
  output_path : Option String
  audio_tracks : List AudioStream
  selected_audio_track : Option Nat
  logs : List String
  is_merging : Bool
  show_logs : Bool
  deriving DecidableEq

/-- Method `AudioMergerApp::append_log`. -/
def append_log (s : AppState) (message : String) : AppState :=
  { s with logs := s.logs ++ [message] }

/-- The owned data handed to the worker thread at spawn time
(main.rs:232–233). -/
structure WorkerSpawn where
  video : String
  audio : String
  output : String
  track : Nat
  deriving DecidableEq

/-- Method `AudioMergerApp::start_merge` (main.rs:192–317): validate the four
selections in order, reject when a merge is already in flight, otherwise set
`is_merging` and spawn the worker.  The returned `Option WorkerSpawn` is the
thread spawn: `none` means no thread (hence no subprocess) is started. -/
def start_merge (s : AppState) : AppState × Option WorkerSpawn :=
  match s.video_path with
  | none => (append_log s "Error: Please select a video file first.", none)
  | some video =>
    match s.audio_path with
    | none => (append_log s "Error: Please select an audio file first.", none)
    | some audio =>
      match s.output_path with
      | none => (append_log s "Error: Please select an output path first.", none)
      | some output =>
        match s.selected_audio_track with
        | none =>
          (append_log s "Error: Please pick an audio track from the dropdown.", none)
        | some track =>
          if s.is_merging then
            (append_log s "Merge is already in progress.", none)
          else
            (append_log { s with is_merging := true }
              ("Starting merge with external audio index " ++ toString track ++ "..."),
             some ⟨video, audio, output, track⟩)

/-- Method `AudioMergerApp::probe_audio_tracks` (main.rs:166–189): probe `path`,
store the track list, auto-select the first `"por"` stream (the source inlines
the same case-insensitive scan as `find_audio_track`), and log the outcome.
Messages the probe sends over the channel are appended to `logs` as the
`update` drain does. -/
def probe_audio_tracks (s : AppState) (path : String) (probe : ProbeResult) :
    AppState :=
  let s0 := append_log s ("Probing audio streams in: " ++ path)
  let tp := get_all_audio_tracks path probe
  let s1 := { s0 with logs := s0.logs ++ tp.2, audio_tracks := tp.1 }
  let sel := find_audio_track tp.1 "por"
  let s2 := { s1 with selected_audio_track := sel }
  match sel with
  | some idx =>
    append_log s2 ("Auto-selected Portuguese track index " ++ toString idx ++ ".")
  | none =>
    if tp.1.isEmpty then
      append_log s2 "Warning: No audio streams found in that file."
    else
      append_log s2 "No 'por' track found; please pick from dropdown."

/-- The dropdown click handler (main.rs:391–401): the combo box iterates over
`audio_tracks`, so only an `entry` of that list can be clicked; clicking sets
`selected_audio_track` to the entry's container index. -/
def choose_track (s : AppState) (entry : AudioStream) : AppState :=
  { s with selected_audio_track := some entry.1 }

/-- One step of the channel drain in `update` (main.rs:323–330). -/
def drain_message (s : AppState) (msg : String) : AppState :=
  if msg = "MERGE_DONE" then
    { append_log s "Merge thread finished." with is_merging := false }
  else
    append_log s msg

/-- The state invariant of claim C8: a selected external track index always
names a stream of the probed track list. -/
def SelectionInv (s : AppState) : Prop :=
  ∀ i, s.selected_audio_track = some i → ∃ lang, (i, lang) ∈ s.audio_tracks

/-! ## Helper lemmas about the track scan and the extraction loop -/

theorem find_audio_track_nil (code : String) : find_audio_track [] code = none := rfl

theorem find_audio_track_cons (idx : Nat) (lang : String) (rest : List AudioStream)
    (code : String) :
    find_audio_track ((idx, lang) :: rest) code =
      if eq_ignore_ascii_case lang code then some idx
      else find_audio_track rest code := rfl

theorem find_audio_track_of_no_match (ts : List AudioStream) (code : String)
    (h : ∀ p ∈ ts, eq_ignore_ascii_case p.2 code = false) :
    find_audio_track ts code = none := by
  induction ts with
  | nil => rfl
  | cons p rest ih =>
    obtain ⟨idx, lang⟩ := p
    rw [find_audio_track_cons]
    have hp := h (idx, lang) (List.mem_cons_self _ _)
    simp only [hp, if_neg Bool.false_ne_true, Bool.false_eq_true, if_false]
    exact ih fun q hq => h q (List.mem_cons_of_mem _ hq)

theorem find_audio_track_first (pre : List AudioStream) (i : Nat) (lang : String)
    (post : List AudioStream) (code : String)
    (hmatch : eq_ignore_ascii_case lang code = true)
    (hpre : ∀ p ∈ pre, eq_ignore_ascii_case p.2 code = false) :
    find_audio_track (pre ++ (i, lang) :: post) code = some i := by
  induction pre with
  | nil => rw [List.nil_append, find_audio_track_cons, if_pos hmatch]
  | cons p rest ih =>
    obtain ⟨idx, l⟩ := p
    rw [List.cons_append, find_audio_track_cons]
    have hp := hpre (idx, l) (List.mem_cons_self _ _)
    simp only [hp, Bool.false_eq_true, if_false]
    exact ih fun q hq => hpre q (List.mem_cons_of_mem _ hq)

theorem find_audio_track_eq_some (ts : List AudioStream) (code : String) (i : Nat)
    (h : find_audio_track ts code = some i) :
    ∃ pre lang post, ts = pre ++ (i, lang) :: post ∧
      eq_ignore_ascii_case lang code = true ∧
      ∀ p ∈ pre, eq_ignore_ascii_case p.2 code = false := by
  induction ts with
  | nil => exact absurd h (by rw [find_audio_track_nil]; exact Option.noConfusion)
  | cons p rest ih =>
    obtain ⟨idx, lang⟩ := p
    rw [find_audio_track_cons] at h
    by_cases hm : eq_ignore_ascii_case lang code = true
    · rw [if_pos hm] at h
      obtain rfl : idx = i := Option.some.inj h
      exact ⟨[], lang, rest, rfl, hm, by intro q hq; exact absurd hq (List.not_mem_nil q)⟩
    · rw [if_neg hm] at h
      obtain ⟨pre, l, post, hts, hl, hpre⟩ := ih h
      refine ⟨(idx, lang) :: pre, l, post, by rw [hts, List.cons_append], hl, ?_⟩
      intro q hq
      rcases List.mem_cons.mp hq with hq | hq
      · rw [hq]
        exact Bool.not_eq_true _ ▸ Bool.of_not_eq_true hm
      · exact hpre q hq

theorem find_audio_track_eq_none (ts : List AudioStream) (code : String)
    (h : find_audio_track ts code = none) :
    ∀ p ∈ ts, eq_ignore_ascii_case p.2 code = false := by
  induction ts with
  | nil => intro p hp; exact absurd hp (List.not_mem_nil p)
  | cons p rest ih =>
    obtain ⟨idx, lang⟩ := p
    rw [find_audio_track_cons] at h
    by_cases hm : eq_ignore_ascii_case lang code = true
    · rw [if_pos hm] at h; exact absurd h (Option.noConfusion)
    · rw [if_neg hm] at h
      intro q hq
      rcases List.mem_cons.mp hq with hq | hq
      · rw [hq]; exact Bool.not_eq_true _ ▸ Bool.of_not_eq_true hm
      · exact ih h q hq

theorem find_audio_track_mem (ts : List AudioStream) (code : String) (i : Nat)
    (h : find_audio_track ts code = some i) : ∃ lang, (i, lang) ∈ ts := by
  obtain ⟨pre, lang, post, hts, -, -⟩ := find_audio_track_eq_some ts code i h
  exact ⟨lang, by rw [hts]; exact List.mem_append_right pre (List.mem_cons_self _ _)⟩

theorem extract_streams_append (l1 l2 : List Json) :
    extract_streams (l1 ++ l2) =
      ((extract_streams l1).1 ++ (extract_streams l2).1,
       (extract_streams l1).2 ++ (extract_streams l2).2) := by
  induction l1 with
  | nil => simp [extract_streams]
  | cons s rest ih =>
    rw [List.cons_append]
    show extract_streams (s :: (rest ++ l2)) = _
    rw [extract_streams, extract_streams, ih]
    cases hidx : (s.get "index").bind Json.as_u64 with
    | none => rfl
    | some idx => simp

theorem extract_streams_skip (s : Json) (rest : List Json)
    (h : (s.get "index").bind Json.as_u64 = none) :
    extract_streams (s :: rest) = extract_streams rest := by
  rw [extract_streams, h]

theorem extract_streams_map_fst (l : List Json) :
    (extract_streams l).1.map Prod.fst =
      l.filterMap (fun s => ((s.get "index").bind Json.as_u64).map (fun n => n % 2 ^ 32)) := by
  induction l with
  | nil => rfl
  | cons s rest ih =>
    rw [extract_streams, List.filterMap_cons]
    cases hidx : (s.get "index").bind Json.as_u64 with
    | none => exact ih
    | some idx => simp [ih]

theorem getLast?_singleton_append {α : Type} (l : List α) (a : α) :
    (l ++ [a]).getLast? = some a := by
  rw [List.getLast?_append_of_ne_nil l (by simp)]; rfl

theorem probe_audio_tracks_fields (s : AppState) (path : String)
    (probe : ProbeResult) :
    (probe_audio_tracks s path probe).audio_tracks =
      (get_all_audio_tracks path probe).1 ∧
    (probe_audio_tracks s path probe).selected_audio_track =
      find_audio_track (get_all_audio_tracks path probe).1 "por" := by
  simp only [probe_audio_tracks]
  cases hsel : find_audio_track (get_all_audio_tracks path probe).1 "por" with
  | none =>
    by_cases he : (get_all_audio_tracks path probe).1.isEmpty <;>
      simp [he, append_log]
  | some idx => simp [append_log]

theorem start_merge_keeps_tracks (s : AppState) :
    (start_merge s).1.audio_tracks = s.audio_tracks ∧
    (start_merge s).1.selected_audio_track = s.selected_audio_track := by
  obtain ⟨vp, ap, op, tracks, sel, logs, merging, sh⟩ := s
  cases vp <;> cases ap <;> cases op <;> cases sel <;> cases merging <;>
    exact ⟨rfl, rfl⟩

theorem start_merge_spawn_fields (s : AppState) (w : WorkerSpawn)
    (h : (start_merge s).2 = some w) :
    s.video_path = some w.video ∧ s.audio_path = some w.audio ∧
    s.output_path = some w.output ∧ s.selected_audio_track = some w.track ∧
    s.is_merging = false := by
  obtain ⟨vp, ap, op, tracks, sel, logs, merging, sh⟩ := s
  cases vp <;> cases ap <;> cases op <;> cases sel <;> cases merging <;>
    first
      | exact Option.noConfusion h
      | (obtain rfl := (Option.some.inj h).symm; exact ⟨rfl, rfl, rfl, rfl, rfl⟩)

/-! ## Claim C2 -/

/-- C2: for every list of probed (index, language) streams and every language
code, `find_audio_track` returns `some i` exactly when `i` is the index of the
first stream in the list whose language tag equals the code ignoring ASCII
case, and returns `none` exactly when no stream's tag matches. -/
theorem C2_first_match_scan (ts : List AudioStream) (code : String) :
    (∀ i, find_audio_track ts code = some i ↔
       ∃ pre lang post, ts = pre ++ (i, lang) :: post ∧
         eq_ignore_ascii_case lang code = true ∧
         ∀ p ∈ pre, eq_ignore_ascii_case p.2 code = false) ∧
    (find_audio_track ts code = none ↔
       ∀ p ∈ ts, eq_ignore_ascii_case p.2 code = false) := by
  constructor
  · intro i
    constructor
    · exact find_audio_track_eq_some ts code i
    · rintro ⟨pre, lang, post, rfl, hm, hpre⟩
      exact find_audio_track_first pre i lang post code hm hpre
  · constructor
    · exact find_audio_track_eq_none ts code
    · exact find_audio_track_of_no_match ts code

/-- Witness for C2 at the spec's own example `[(0,"eng"),(2,"por"),(5,"eng")]`:
the first `"eng"` match wins (index 0, not 5), and a list without a match
yields `none`. -/
theorem C2_first_match_scan_witness :
    find_audio_track [(0, "eng"), (2, "por"), (5, "eng")] "eng" = some 0 ∧
    find_audio_track [(2, "por")] "eng" = none :=
  ⟨((C2_first_match_scan [(0, "eng"), (2, "por"), (5, "eng")] "eng").1 0).mpr
      ⟨[], "eng", [(2, "por"), (5, "eng")], rfl, by decide, by decide⟩,
   (C2_first_match_scan [(2, "por")] "eng").2.mpr (by decide)⟩

/-! ## Claim C1 -/

/-- C1: when the probe of the video finds an "eng"-tagged stream whose first
occurrence has container index `i`, the worker's ffmpeg invocation maps
exactly `0:0`, `0:i` (verbatim, no offset) and `1:t`, with stream copy (`-c
copy`), overwrite (`-y`) and the given output path; when no "eng" tag is
found it maps `0:0`, the fixed fallback `0:1`, and `1:t`. -/
theorem C1_ffmpeg_mapping (video audio output : String) (track : Nat)
    (videoProbe : ProbeResult) (outcome : MuxOutcome) :
    (∀ i lang pre post,
       (get_all_audio_tracks video videoProbe).1 = pre ++ (i, lang) :: post →
       eq_ignore_ascii_case lang "eng" = true →
       (∀ p ∈ pre, eq_ignore_ascii_case p.2 "eng" = false) →
       (merge_worker video audio output track videoProbe outcome).1 =
         ["-hide_banner", "-loglevel", "error", "-y",
          "-i", video, "-i", audio,
          "-map", "0:0", "-map", "0:" ++ toString i, "-map", "1:" ++ toString track,
          "-c", "copy", output]) ∧
    ((∀ p ∈ (get_all_audio_tracks video videoProbe).1,
        eq_ignore_ascii_case p.2 "eng" = false) →
       (merge_worker video audio output track videoProbe outcome).1 =
         ["-hide_banner", "-loglevel", "error", "-y",
          "-i", video, "-i", audio,
          "-map", "0:0", "-map", "0:1", "-map", "1:" ++ toString track,
          "-c", "copy", output]) := by
  constructor
  · intro i lang pre post hts hm hpre
    have hfind : find_audio_track (get_all_audio_tracks video videoProbe).1 "eng" =
        some i := by
      rw [hts]; exact find_audio_track_first pre i lang post "eng" hm hpre
    simp only [merge_worker, hfind]
  · intro hnone
    have hfind : find_audio_track (get_all_audio_tracks video videoProbe).1 "eng" =
        none := find_audio_track_of_no_match _ _ hnone
    simp only [merge_worker, hfind]

/-- The concrete ffprobe payload used by the C1 witness: one audio stream at
container index 3 tagged `"eng"`. -/
def c1_video_payload : Json :=
  .obj [("streams", .arr [.obj [("index", .num 3),
    ("tags", .obj [("language", .str "eng")])]])]

/-- Witness for C1: with an "eng" stream probed at index 3 and external track
7, the worker maps `0:0`, `0:3`, `1:7`; with a probe that finds nothing, it
maps the fallback `0:1`. -/
theorem C1_ffmpeg_mapping_witness :
    (merge_worker "v.mkv" "a.mka" "o.mkv" 7
        (.success "raw" (.ok c1_video_payload)) .spawnFailed).1 =
      ["-hide_banner", "-loglevel", "error", "-y",
       "-i", "v.mkv", "-i", "a.mka",
       "-map", "0:0", "-map", "0:3", "-map", "1:7",
       "-c", "copy", "o.mkv"] ∧
    (merge_worker "v.mkv" "a.mka" "o.mkv" 7 (.execError "missing") .spawnFailed).1 =
      ["-hide_banner", "-loglevel", "error", "-y",
       "-i", "v.mkv", "-i", "a.mka",
       "-map", "0:0", "-map", "0:1", "-map", "1:7",
       "-c", "copy", "o.mkv"] :=
  ⟨((C1_ffmpeg_mapping "v.mkv" "a.mka" "o.mkv" 7
      (.success "raw" (.ok c1_video_payload)) .spawnFailed).1
        3 "eng" [] [] (by decide) (by decide) (by decide)).trans (by decide),
   ((C1_ffmpeg_mapping "v.mkv" "a.mka" "o.mkv" 7
      (.execError "missing") .spawnFailed).2 (by decide)).trans (by decide)⟩

/-! ## Claim C3 -/

/-- A payload whose `streams` array holds one entry with a usable index and
one entry with none. -/
def c3_payload : Json :=
  .obj [("streams", .arr [.obj [("index", .num 0)], .obj []])]

/-- C3 counterexample: `c3_payload`'s array contains an entry (the empty
object) without a usable `"index"` field, yet the result is `[(0,"unknown")]`,
not the empty result the claim demands in that case. -/
theorem C3_counterexample_entry_skipped :
    ((Json.obj []).get "index").bind Json.as_u64 = none ∧
    (get_all_audio_tracks "video.mkv" (.success "raw" (.ok c3_payload))).1 =
      [(0, "unknown")] ∧
    (get_all_audio_tracks "video.mkv" (.success "raw" (.ok c3_payload))).1 ≠ [] := by
  decide

/-- C3 amended: a spawn failure, a non-zero probe exit, a JSON parse failure,
and a missing or non-array top-level `streams` collection each yield zero
streams plus a diagnostic log line and no fatal error; an entry lacking a
usable `index` field is merely skipped — it is omitted from the result while
the remaining entries are kept, rather than emptying the whole result. -/
theorem C3_defensive_probe_parsing :
    (∀ fp e, get_all_audio_tracks fp (.execError e) =
       ([], ["ffprobe → probing: " ++ fp, "ffprobe failed to execute: " ++ e])) ∧
    (∀ fp, get_all_audio_tracks fp .exitNonzero =
       ([], ["ffprobe → probing: " ++ fp, "ffprobe returned nonzero for " ++ fp])) ∧
    (∀ fp st e, get_all_audio_tracks fp (.success st (.error e)) =
       ([], ["ffprobe → probing: " ++ fp, "ffprobe JSON: " ++ st,
             "JSON parse error: " ++ e])) ∧
    (∀ fp st v, (v.get "streams").bind Json.as_array = none →
       get_all_audio_tracks fp (.success st (.ok v)) =
         ([], ["ffprobe → probing: " ++ fp, "ffprobe JSON: " ++ st,
               "No “streams” array in ffprobe output"])) ∧
    (∀ s rest, (s.get "index").bind Json.as_u64 = none →
       extract_streams (s :: rest) = extract_streams rest) := by
  refine ⟨fun fp e => rfl, fun fp => rfl, fun fp st e => rfl, ?_, ?_⟩
  · intro fp st v h
    simp [get_all_audio_tracks, h]
  · exact fun s rest h => extract_streams_skip s rest h

/-- Witness for C3 amended: a payload whose top level is a bare number has no
`streams` array and yields zero streams plus the diagnostic; the empty object
entry is skipped. -/
theorem C3_defensive_probe_parsing_witness :
    get_all_audio_tracks "x.mkv" (.success "7" (.ok (.num 7))) =
      ([], ["ffprobe → probing: x.mkv", "ffprobe JSON: 7",
            "No “streams” array in ffprobe output"]) ∧
    extract_streams [Json.obj [], Json.obj [("index", Json.num 4)]] =
      extract_streams [Json.obj [("index", Json.num 4)]] :=
  ⟨C3_defensive_probe_parsing.2.2.2.1 "x.mkv" "7" (.num 7) rfl,
   C3_defensive_probe_parsing.2.2.2.2 (Json.obj []) [Json.obj [("index", Json.num 4)]]
     (by decide)⟩

/-! ## Claim C4 -/

/-- A payload whose `streams` array lists index 5 before index 0. -/
def c4_payload : Json :=
  .obj [("streams", .arr [.obj [("index", .num 5)], .obj [("index", .num 0)]])]

/-- C4 counterexample: the code never sorts, so a payload listing index 5
before index 0 produces `[(5,"unknown"),(0,"unknown")]`, which is not ordered
by ascending stream index. -/
theorem C4_counterexample_payload_order :
    (get_all_audio_tracks "video.mkv" (.success "raw" (.ok c4_payload))).1 =
      [(5, "unknown"), (0, "unknown")] ∧
    ¬ List.Pairwise (fun a b : AudioStream => a.1 ≤ b.1)
      (get_all_audio_tracks "video.mkv" (.success "raw" (.ok c4_payload))).1 := by
  decide

/-- C4 amended: the result lists streams in payload order — its indices are
exactly the usable `index` values of the `streams` array in array order — so
whenever the payload's usable indices are ascending (as real ffprobe output
is), the result is ordered by ascending index. -/
theorem C4_ascending_when_payload_ascending (fp st : String) (v : Json)
    (streams : List Json)
    (harr : (v.get "streams").bind Json.as_array = some streams) :
    ((get_all_audio_tracks fp (.success st (.ok v))).1.map Prod.fst =
       streams.filterMap
         (fun s => ((s.get "index").bind Json.as_u64).map (fun n => n % 2 ^ 32))) ∧
    (List.Pairwise (fun a b : Nat => a ≤ b)
        (streams.filterMap
          (fun s => ((s.get "index").bind Json.as_u64).map (fun n => n % 2 ^ 32))) →
      List.Pairwise (fun a b : AudioStream => a.1 ≤ b.1)
        (get_all_audio_tracks fp (.success st (.ok v))).1) := by
  have hres : (get_all_audio_tracks fp (.success st (.ok v))).1 =
      (extract_streams streams).1 := by
    simp only [get_all_audio_tracks, harr]
  constructor
  · rw [hres]; exact extract_streams_map_fst streams
  · intro hsorted
    rw [hres]
    rw [← extract_streams_map_fst streams] at hsorted
    exact (List.pairwise_map.mp hsorted).imp (fun h => h)

/-- Witness for C4 amended: an ascending two-stream payload yields an
ascending result. -/
theorem C4_ascending_when_payload_ascending_witness :
    List.Pairwise (fun a b : AudioStream => a.1 ≤ b.1)
      (get_all_audio_tracks "video.mkv" (.success "raw"
        (.ok (.obj [("streams", .arr [.obj [("index", .num 1)],
          .obj [("index", .num 4)]])])))).1 :=
  (C4_ascending_when_payload_ascending "video.mkv" "raw"
      (.obj [("streams", .arr [.obj [("index", .num 1)], .obj [("index", .num 4)]])])
      [.obj [("index", .num 1)], .obj [("index", .num 4)]]
      rfl).2 (by decide)

/-! ## Claim C9 -/

/-- C9: a probed entry with a usable index but no usable language tag (missing
`tags`, missing `language`, or a non-string value) is kept in the result with
the sentinel language `"unknown"` rather than omitted. -/
theorem C9_unknown_language_sentinel (fp st : String) (v : Json)
    (l1 l2 : List Json) (s : Json) (idx : Nat)
    (harr : (v.get "streams").bind Json.as_array = some (l1 ++ s :: l2))
    (hidx : (s.get "index").bind Json.as_u64 = some idx)
    (hlang : ((s.get "tags").bind (fun t => t.get "language")).bind Json.as_str = none) :
    (idx % 2 ^ 32, "unknown") ∈
      (get_all_audio_tracks fp (.success st (.ok v))).1 := by
  have hres : (get_all_audio_tracks fp (.success st (.ok v))).1 =
      (extract_streams (l1 ++ s :: l2)).1 := by
    simp only [get_all_audio_tracks, harr]
  rw [hres, extract_streams_append]
  apply List.mem_append_right
  simp only [extract_streams, hidx, hlang, Option.getD_none]
  exact List.mem_cons_self _ _

/-- Witness for C9: a stream at index 2 whose `tags` object lacks a
`language` string is reported as `(2, "unknown")`. -/
theorem C9_unknown_language_sentinel_witness :
    (2 % 2 ^ 32, "unknown") ∈
      (get_all_audio_tracks "x.mkv" (.success "raw"
        (.ok (.obj [("streams", .arr [.obj [("index", .num 2),
          ("tags", .obj [])]])])))).1 :=
  C9_unknown_language_sentinel "x.mkv" "raw"
    (.obj [("streams", .arr [.obj [("index", .num 2), ("tags", .obj [])]])])
    [] [] (.obj [("index", .num 2), ("tags", .obj [])]) 2
    rfl (by decide) rfl

/-! ## Claim C5 -/

/-- C5: a `start_merge` request made while `is_merging` is true spawns no
worker (hence no subprocess), logs exactly one user-visible message, leaves
`is_merging` set and every other selection field untouched (nothing is
queued); moreover after any call that did spawn a worker — in fact after any
call at all — an immediately following `start_merge` spawns nothing, since the
terminal done signal has not been drained. -/
theorem C5_single_merge_in_flight :
    (∀ s : AppState, s.is_merging = true →
       (start_merge s).2 = none ∧
       (start_merge s).1.is_merging = true ∧
       (∃ m, (start_merge s).1.logs = s.logs ++ [m]) ∧
       (start_merge s).1.video_path = s.video_path ∧
       (start_merge s).1.audio_path = s.audio_path ∧
       (start_merge s).1.output_path = s.output_path ∧
       (start_merge s).1.audio_tracks = s.audio_tracks ∧
       (start_merge s).1.selected_audio_track = s.selected_audio_track) ∧
    (∀ s : AppState, (start_merge (start_merge s).1).2 = none) := by
  constructor
  · intro s h
    obtain ⟨vp, ap, op, tracks, sel, logs, merging, sh⟩ := s
    simp only at h
    subst h
    cases vp <;> cases ap <;> cases op <;> cases sel <;>
      exact ⟨rfl, rfl, ⟨_, rfl⟩, rfl, rfl, rfl, rfl, rfl⟩
  · intro s
    obtain ⟨vp, ap, op, tracks, sel, logs, merging, sh⟩ := s
    cases vp <;> cases ap <;> cases op <;> cases sel <;> cases merging <;> rfl

/-- A busy state used as the C5 witness. -/
def c5_state : AppState :=
  { video_path := some "v.mkv", audio_path := some "a.mka",
    output_path := some "o.mkv", audio_tracks := [(1, "por")],
    selected_audio_track := some 1, logs := [], is_merging := true,
    show_logs := false }

/-- Witness for C5: the busy state rejects the request without a spawn and
stays busy. -/
theorem C5_single_merge_in_flight_witness :
    (start_merge c5_state).2 = none ∧ (start_merge c5_state).1.is_merging = true :=
  ⟨(C5_single_merge_in_flight.1 c5_state rfl).1,
   (C5_single_merge_in_flight.1 c5_state rfl).2.1⟩

/-! ## Claim C6 -/

/-- C6: when the video path, external-audio path, output path or chosen track
index is missing, `start_merge` spawns no worker (hence no subprocess), does
not enter the merging state, and logs exactly one message, which is one of
the four blocking validation errors. -/
theorem C6_missing_selection_rejected (s : AppState)
    (h : s.video_path = none ∨ s.audio_path = none ∨ s.output_path = none ∨
         s.selected_audio_track = none) :
    (start_merge s).2 = none ∧
    (start_merge s).1.is_merging = s.is_merging ∧
    ∃ m, (start_merge s).1.logs = s.logs ++ [m] ∧
      m ∈ ["Error: Please select a video file first.",
           "Error: Please select an audio file first.",
           "Error: Please select an output path first.",
           "Error: Please pick an audio track from the dropdown."] := by
  obtain ⟨vp, ap, op, tracks, sel, logs, merging, sh⟩ := s
  simp only at h
  rcases vp with _ | v <;> rcases ap with _ | a <;> rcases op with _ | o <;>
    rcases sel with _ | t <;>
      first
        | exact ⟨rfl, rfl, _, rfl, by decide⟩
        | simp at h

/-- A state missing the audio path and the track choice, used as the C6
witness. -/
def c6_state : AppState :=
  { video_path := some "v.mkv", audio_path := none,
    output_path := some "o.mkv", audio_tracks := [],
    selected_audio_track := none, logs := [], is_merging := false,
    show_logs := false }

/-- Witness for C6: the incomplete state is rejected without a spawn and
without entering the merging state. -/
theorem C6_missing_selection_rejected_witness :
    (start_merge c6_state).2 = none ∧ (start_merge c6_state).1.is_merging = false :=
  ⟨(C6_missing_selection_rejected c6_state (Or.inr (Or.inl rfl))).1,
   (C6_missing_selection_rejected c6_state (Or.inr (Or.inl rfl))).2.1⟩

/-! ## Claim C7 -/

/-- C7: the worker classifies the ffmpeg outcome into three disjoint cases —
spawn failure, non-zero exit reported with the exit code, zero exit reported
as success — always as exactly one log line, and in every case the terminal
`"MERGE_DONE"` signal is the last message sent. -/
theorem C7_outcome_classification (video audio output : String) (track : Nat)
    (videoProbe : ProbeResult) (outcome : MuxOutcome) :
    (∀ fb oc, (mux_outcome_logs fb oc).length = 1) ∧
    (∃ front fb, (merge_worker video audio output track videoProbe outcome).2 =
       front ++ mux_outcome_logs fb outcome ++ ["MERGE_DONE"]) ∧
    ((merge_worker video audio output track videoProbe outcome).2).getLast? =
      some "MERGE_DONE" ∧
    (outcome = .spawnFailed →
       "Error: Unable to run ffmpeg.exe." ∈
         (merge_worker video audio output track videoProbe outcome).2) ∧
    (∀ code, outcome = .exited code → code ≠ some 0 →
       ("ffmpeg exited with code " ++ repr_opt_int code ++ ".") ∈
         (merge_worker video audio output track videoProbe outcome).2) ∧
    (outcome = .exited (some 0) →
       "Merge completed successfully!" ∈
         (merge_worker video audio output track videoProbe outcome).2 ∨
       "Merge completed successfully (fallback video audio)!" ∈
         (merge_worker video audio output track videoProbe outcome).2) := by
  have hlen : ∀ fb oc, (mux_outcome_logs fb oc).length = 1 := by
    intro fb oc
    cases oc with
    | spawnFailed => rfl
    | exited code => by_cases hc : code = some 0 <;> simp [mux_outcome_logs, hc]
  cases hfind : find_audio_track (get_all_audio_tracks video videoProbe).1 "eng" with
  | some engIdx =>
    simp only [merge_worker, hfind]
    refine ⟨hlen,
      ⟨["ffprobe → searching for 'eng' in video..."] ++
        (get_all_audio_tracks video videoProbe).2 ++
        ["Found 'eng' at index " ++ toString engIdx ++ ".",
         "Running ffmpeg to merge..."], false, by simp⟩, ?_, ?_, ?_, ?_⟩
    · exact getLast?_singleton_append _ _
    · rintro rfl
      simp [mux_outcome_logs]
    · rintro code rfl hne
      simp [mux_outcome_logs, hne]
    · rintro rfl
      left
      simp [mux_outcome_logs]
  | none =>
    simp only [merge_worker, hfind]
    refine ⟨hlen,
      ⟨["ffprobe → searching for 'eng' in video..."] ++
        (get_all_audio_tracks video videoProbe).2 ++
        ["No 'eng' in video; using fallback audio 0:1 from video.",
         "Running ffmpeg to merge..."], true, by simp⟩, ?_, ?_, ?_, ?_⟩
    · exact getLast?_singleton_append _ _
    · rintro rfl
      simp [mux_outcome_logs]
    · rintro code rfl hne
      simp [mux_outcome_logs, hne]
    · rintro rfl
      right
      simp [mux_outcome_logs]

/-- Witness for C7: a non-zero ffmpeg exit is reported with the rendered exit
code and the done signal still arrives last. -/
theorem C7_outcome_classification_witness :
    ("ffmpeg exited with code " ++ repr_opt_int (some 1) ++ ".") ∈
      (merge_worker "v.mkv" "a.mka" "o.mkv" 0 (.execError "gone")
        (.exited (some 1))).2 ∧
    ((merge_worker "v.mkv" "a.mka" "o.mkv" 0 (.execError "gone")
        (.exited (some 1))).2).getLast? = some "MERGE_DONE" :=
  ⟨(C7_outcome_classification "v.mkv" "a.mka" "o.mkv" 0 (.execError "gone")
      (.exited (some 1))).2.2.2.2.1 (some 1) rfl (by decide),
   (C7_outcome_classification "v.mkv" "a.mka" "o.mkv" 0 (.execError "gone")
      (.exited (some 1))).2.2.1⟩

/-! ## Claim C8 -/

/-- C8: whenever a track is selected its index names a stream of the probed
list — probing (with its "por" auto-selection) establishes the invariant,
choosing a dropdown entry drawn from `audio_tracks` preserves it,
`start_merge` never touches it, and therefore the external track index handed
to the spawned worker always references a probed stream. -/
theorem C8_selected_track_probed :
    (∀ s path probe, SelectionInv (probe_audio_tracks s path probe)) ∧
    (∀ (s : AppState) (entry : AudioStream), entry ∈ s.audio_tracks →
       SelectionInv (choose_track s entry)) ∧
    (∀ s : AppState, SelectionInv s → SelectionInv (start_merge s).1) ∧
    (∀ (s : AppState) (w : WorkerSpawn), SelectionInv s →
       (start_merge s).2 = some w → ∃ lang, (w.track, lang) ∈ s.audio_tracks) := by
  refine ⟨?_, ?_, ?_, ?_⟩
  · intro s path probe i hi
    obtain ⟨htracks, hsel⟩ := probe_audio_tracks_fields s path probe
    rw [hsel] at hi
    rw [htracks]
    exact find_audio_track_mem _ _ _ hi
  · intro s entry hmem i hi
    obtain rfl : entry.1 = i := Option.some.inj hi
    exact ⟨entry.2, hmem⟩
  · intro s hs i hi
    obtain ⟨htracks, hsel⟩ := start_merge_keeps_tracks s
    rw [hsel] at hi
    rw [htracks]
    exact hs i hi
  · intro s w hs hspawn
    exact hs w.track (start_merge_spawn_fields s w hspawn).2.2.2.1

/-- A state about to spawn a worker for track 2, used as the C8 witness. -/
def c8_state : AppState :=
  { video_path := some "v.mkv", audio_path := some "a.mka",
    output_path := some "o.mkv", audio_tracks := [(0, "eng"), (2, "por")],
    selected_audio_track := some 2, logs := [], is_merging := false,
    show_logs := false }

/-- Witness for C8: the worker spawned from `c8_state` carries track 2, which
is indeed a probed stream of the external file. -/
theorem C8_selected_track_probed_witness :
    ∃ lang, ((⟨"v.mkv", "a.mka", "o.mkv", 2⟩ : WorkerSpawn).track, lang) ∈
      c8_state.audio_tracks :=
  C8_selected_track_probed.2.2.2 c8_state ⟨"v.mkv", "a.mka", "o.mkv", 2⟩
    (fun i hi => ⟨"por", by
      obtain rfl : 2 = i := Option.some.inj hi
      exact List.mem_cons_of_mem _ (List.mem_cons_self _ _)⟩)
    rfl

/-! ## Claim C10 -/

/-- C10: after probing the external audio file the stored track list is
exactly the probe result and the selection is overwritten with the index of
the first stream whose language tag case-insensitively equals `"por"` — or
with `none` when no such stream exists — regardless of any previous
selection. -/
theorem C10_auto_select_por (s : AppState) (path : String) (probe : ProbeResult) :
    (probe_audio_tracks s path probe).audio_tracks =
      (get_all_audio_tracks path probe).1 ∧
    (∀ i, (probe_audio_tracks s path probe).selected_audio_track = some i ↔
       ∃ pre lang post,
         (get_all_audio_tracks path probe).1 = pre ++ (i, lang) :: post ∧
         eq_ignore_ascii_case lang "por" = true ∧
         ∀ p ∈ pre, eq_ignore_ascii_case p.2 "por" = false) ∧
    ((probe_audio_tracks s path probe).selected_audio_track = none ↔
       ∀ p ∈ (get_all_audio_tracks path probe).1,
         eq_ignore_ascii_case p.2 "por" = false) := by
  obtain ⟨htracks, hsel⟩ := probe_audio_tracks_fields s path probe
  refine ⟨htracks, ?_, ?_⟩
  · intro i
    rw [hsel]
    constructor
    · exact find_audio_track_eq_some _ _ i
    · rintro ⟨pre, lang, post, hts, hm, hpre⟩
      rw [hts]
      exact find_audio_track_first pre i lang post "por" hm hpre
  · rw [hsel]
    constructor
    · exact find_audio_track_eq_none _ _
    · exact find_audio_track_of_no_match _ _

/-- A state with a stale selection, used as the C10 witness. -/
def c10_state : AppState :=
  { video_path := none, audio_path := some "a.mka", output_path := none,
    audio_tracks := [(9, "eng")], selected_audio_track := some 9,
    logs := [], is_merging := false, show_logs := false }

/-- The ffprobe payload of the C10 witness: a `"POR"`-tagged stream at
container index 4. -/
def c10_payload : Json :=
  .obj [("streams", .arr [.obj [("index", .num 4),
    ("tags", .obj [("language", .str "POR")])]])]

/-- Witness for C10: probing overwrites the stale selection `some 9` with the
index of the case-insensitive `"por"` match, `some 4`. -/
theorem C10_auto_select_por_witness :
    (probe_audio_tracks c10_state "a.mka"
      (.success "raw" (.ok c10_payload))).selected_audio_track = some 4 :=
  ((C10_auto_select_por c10_state "a.mka"
      (.success "raw" (.ok c10_payload))).2.1 4).mpr
    ⟨[], "POR", [], by decide, by decide, by decide⟩

end RustMediaMerger
